import Mathlib

/-!
Verification of the middle-room session store
(`src/stores/app/middle-room.ts`).

The development shallowly embeds the parts of `MiddleRoomStore` that the
specification talks about: the event serializer discipline, the stage
occupancy state machine (`clickPlatform`), reward accounting
(`addGroupStar`), the classroom-property synchronizer, `reset`/`leave`,
the screen-sharing flag handlers, and the stream-lifecycle
reconciliation of the `local-stream-updated` handler.
-/

namespace MiddleRoom

/- ===================================================================
   Event serializer (claim C1).

   Modelled from the spec: the implementation of `sceneStore.mutex`
   (the single-flight dispatch queue used by the `local-stream-removed`,
   `local-stream-updated` and `user-message` handlers via
   `mutex.dispatch`) is not part of this repository's sources; §4.1 of
   the spec describes it as a single-consumer FIFO queue that runs every
   submitted task body to completion before starting the next.

   A task is the list of its atomic segments (the code between two
   `await` suspension points), each a state transformer.  A schedule is
   a list of labelled segments; the label is the submission index of the
   task a segment belongs to.  The mutex discipline — handler bodies run
   one at a time, never interleaving, in submission order — says exactly
   that the labels along the schedule are non-decreasing.
   =================================================================== -/

/-- Run one task: execute its segments in program order. -/
def runTask {σ : Type} (s : σ) (t : List (σ → σ)) : σ :=
  t.foldl (fun a f => f a) s

/-- Run all submitted tasks sequentially in submission order. -/
def execSerial {σ : Type} (tasks : List (List (σ → σ))) (s : σ) : σ :=
  tasks.foldl runTask s

/-- Labelled flattening of the tasks, starting at submission index `n`:
every segment is tagged with the submission index of its task. -/
def canonicalFrom {σ : Type} : Nat → List (List (σ → σ)) → List (Nat × (σ → σ))
  | _, [] => []
  | n, t :: ts => (t.map (fun f => (n, f))) ++ canonicalFrom (n + 1) ts

/-- The canonical (fully serialized) schedule of a task list. -/
def canonicalSched {σ : Type} (tasks : List (List (σ → σ))) : List (Nat × (σ → σ)) :=
  canonicalFrom 0 tasks

/-- Run a schedule: execute the segments in schedule order. -/
def runSched {σ : Type} (sched : List (Nat × (σ → σ))) (s : σ) : σ :=
  sched.foldl (fun a p => p.2 a) s

/-- The mutex discipline: task bodies never interleave and start in
submission order, i.e. the submission labels along the schedule are
non-decreasing. -/
def SerialOrder {α : Type} (sched : List (Nat × α)) : Prop :=
  sched.Pairwise (fun p q => p.1 ≤ q.1)

/-- Concrete tasks used to instantiate the serializer theorem. -/
def tasksW : List (List (Nat → Nat)) :=
  [[fun n => n + 1, fun n => n * 3], [fun n => n + 5]]

/- ===================================================================
   Data model (from `middle-room.ts`).
   =================================================================== -/

/-- A value stored into the shared room-property tree. -/
inductive PropValue : Type
  | num (n : Int)
  | str (s : String)
  deriving DecidableEq, Repr

/-- One entry of the local chat log (`ChatMessage` pushed by
`addChatMessage`). -/
structure ChatMessage where
  id : String
  ts : Nat
  text : String
  account : String
  link : String := ""
  sender : Bool
  deriving DecidableEq, Repr

/-- One member of a user group, as read from the cached
`roomProperties.students` record (`cardUserGroups`). -/
structure Member where
  userUuid : String
  streamUuid : String
  reward : Int
  deriving DecidableEq, Repr

/-- A `UserGroup` as passed to `clickPlatform` / `addGroupStar`. -/
structure UserGroup where
  groupUuid : String
  groupName : String
  members : List Member
  deriving DecidableEq, Repr

/-- Payload element of `batchUpsertStream`. -/
structure StreamSpec where
  userUuid : String
  streamUuid : String
  streamName : String
  videoSourceType : Nat
  audioSourceType : Nat
  videoState : Nat
  audioState : Nat
  deriving DecidableEq, Repr

/-- Payload element of `batchDeleteStream`. -/
structure DeleteSpec where
  userUuid : String
  streamUuid : String
  deriving DecidableEq, Repr

/-- A remote call issued by the command methods: a batched property
update (`updateRoomBatchProperties`, with its cause tag), a stream batch
upsert, or a stream batch deletion. -/
inductive Call : Type
  | updateProps (properties : List (String × PropValue)) (cause : String)
  | upsertStream (streams : List StreamSpec)
  | deleteStream (streams : List DeleteSpec)
  deriving DecidableEq, Repr

/-- The two stage slots (`roomProperties.interactOutGroups`); in the
source a slot is read with `get(..., '')`, so the empty string denotes
an empty slot (JS falsiness). -/
structure InteractOutGroups where
  g1 : String := ""
  g2 : String := ""
  deriving DecidableEq, Repr

/-- The `record` block of the property tree. -/
structure RecordInfo where
  state : Nat
  recordId : String := ""
  deriving DecidableEq, Repr

/-- The `roomStatus` block accompanying a property snapshot. -/
structure RoomStatus where
  courseState : Nat
  startTime : Nat
  isStudentChatAllowed : Bool
  deriving DecidableEq, Repr

/-- The namespaces of the shared property tree that the verified
handlers read (`record`, `interactOutGroups`); the remaining namespaces
(`students`, `groups`, ...) are only passed through wholesale. -/
structure RoomProps where
  record : Option RecordInfo := none
  interactOutGroups : InteractOutGroups := {}
  deriving DecidableEq, Repr

/-- Argument of the `classroom-property-updated` notification. -/
structure Classroom where
  roomProperties : RoomProps
  roomStatus : RoomStatus
  deriving DecidableEq, Repr

/-- Video source type of a published stream. -/
inductive VideoSourceType : Type
  | camera
  | screen
  deriving DecidableEq, Repr

/-- A stream of the remote stream list (`EduStream`). -/
structure EduStreamM where
  streamUuid : String
  videoSourceType : VideoSourceType
  deriving DecidableEq, Repr

/-- The local screen stream data (`getLocalScreenData()`): a state word
(0 = offline) and the stream descriptor. -/
structure ScreenData where
  state : Nat
  stream : EduStreamM
  deriving DecidableEq, Repr

/-- The observable state owned by `MiddleRoomStore` together with the
scene-store scalars the verified handlers mutate.  The field defaults
are the class-initializer values of the source. -/
structure MState where
  roomProperties : RoomProps := {}
  roomChatMessages : List ChatMessage := []
  userGroups : List UserGroup := []
  pkList : List String := []
  messages : List String := []
  notice : Option String := none
  groupingSolution : Int := 0
  quit : Bool := false
  joined : Bool := false
  recordState : Bool := false
  recordId : String := ""
  classState : Nat := 0
  startTime : Nat := 0
  timerOn : Bool := false
  isMuted : Bool := false
  joiningRTC : Bool := false
  streamList : List EduStreamM := []
  sharing : Bool := false
  screenEduStream : Option EduStreamM := none
  roomUuid : String := ""
  userRole : String := ""
  deriving DecidableEq, Repr

/- ===================================================================
   Stage occupancy state machine (`clickPlatform`), claims C2 and C3.
   =================================================================== -/

/-- The stream upsert entry built for one member in the on-stage branch
of `clickPlatform` (fixed source types, video and audio on). -/
def memberUpsert (m : Member) : StreamSpec :=
  { userUuid := m.userUuid
    streamUuid := m.streamUuid
    streamName := m.userUuid ++ "stream"
    videoSourceType := 1
    audioSourceType := 1
    videoState := 1
    audioState := 1 }

/-- The stream deletion entry built for one member in the off-stage
branch of `clickPlatform`. -/
def memberDelete (m : Member) : DeleteSpec :=
  { userUuid := m.userUuid, streamUuid := m.streamUuid }

/-- `clickPlatform(group)`: the remote calls issued, as a function of
the cached stage slots (`platformState.g1/g2`) and the group argument.
The method mutates no local state; every effect is a remote call. -/
def clickPlatform (pf : InteractOutGroups) (group : UserGroup) : List Call :=
  let id := group.groupUuid
  if pf.g1 = id ∨ pf.g2 = id then
    let t := if pf.g1 = id then ("g1") else ("g2")
    let properties :=
      if (t = "g1" ∧ pf.g2 = "") ∨ (t = "g2" ∧ pf.g1 = "") then
        [("groupStates.interactOutGroup", PropValue.num 0),
         ("interactOutGroups." ++ t, PropValue.str (""))]
      else
        [("interactOutGroups." ++ t, PropValue.str (""))]
    [Call.updateProps properties ("104"),
     Call.deleteStream (group.members.map memberDelete)]
  else if pf.g1 ≠ "" ∧ pf.g2 ≠ "" then
    []
  else
    let t := if pf.g1 = "" then ("g1") else ("g2")
    [Call.upsertStream (group.members.map memberUpsert),
     Call.updateProps
       [("groupStates.state", PropValue.num 1),
        ("groupStates.interactInGroup", PropValue.num 0),
        ("groupStates.interactOutGroup", PropValue.num 1),
        ("interactOutGroups." ++ t, PropValue.str id)] ("104")]

/-- Number of occupied stage slots. -/
def occupiedCount (pf : InteractOutGroups) : Nat :=
  (if pf.g1 ≠ "" then 1 else 0) + (if pf.g2 ≠ "" then 1 else 0)

/-- The slot key chosen by the on-stage branch
(`let t = !platformState.g1 ? 'g1' : 'g2'`): prefer `g1` when empty. -/
def placementSlot (pf : InteractOutGroups) : String :=
  if pf.g1 = "" then ("g1") else ("g2")

/-- The slot key chosen by the off-stage branch
(`let t = platformState.g1 === id ? 'g1' : 'g2'`). -/
def removalSlot (pf : InteractOutGroups) (id : String) : String :=
  if pf.g1 = id then ("g1") else ("g2")

/-- The condition under which the off-stage branch also clears the
out-of-group interaction flag: the slot being vacated is the last
occupied one. -/
def removalOtherEmpty (pf : InteractOutGroups) (id : String) : Prop :=
  if pf.g1 = id then pf.g2 = "" else pf.g1 = ""

instance (pf : InteractOutGroups) (id : String) :
    Decidable (removalOtherEmpty pf id) := by
  unfold removalOtherEmpty; infer_instance

/- ===================================================================
   Reward accounting (`addGroupStar`), claim C4.
   =================================================================== -/

/-- Insertion of one key into a JS object literal: a later value for an
existing key overwrites in place, a fresh key is appended. -/
def objInsert (l : List (String × PropValue)) (kv : String × PropValue) :
    List (String × PropValue) :=
  if l.any (fun p => p.1 == kv.1) then
    l.map (fun p => if p.1 = kv.1 then (p.1, kv.2) else p)
  else
    l ++ [kv]

/-- The reward key written for one member. -/
def rewardKey (m : Member) : String :=
  "students." ++ m.userUuid ++ ".reward"

/-- `addGroupStar(group)`: builds one property payload with an entry
`students.<uuid>.reward ↦ reward + 1` per member and issues a single
batched property update (cause tag 202).  No local state is read or
mutated. -/
def addGroupStar (group : UserGroup) : List Call :=
  let properties := group.members.foldl
    (fun acc m => objInsert acc (rewardKey m, PropValue.num (m.reward + 1))) []
  [Call.updateProps properties ("202")]

/- ===================================================================
   Room property synchronizer (`classroom-property-updated` handler),
   claims C5 and C6.
   =================================================================== -/

/-- `addChatMessage`: push onto the chat log. -/
def addChatMessage (s : MState) (m : ChatMessage) : MState :=
  { s with roomChatMessages := s.roomChatMessages ++ [m] }

/-- The system chat marker appended when a recording stops. -/
def recordStopMessage (s : MState) (now : Nat) : ChatMessage :=
  { id := "system", ts := now, text := "", account := "system",
    link := s.roomUuid, sender := false }

/-- The recording branch of the `classroom-property-updated` handler. -/
def handleRecord (s : MState) (record : Option RecordInfo) (now : Nat) : MState :=
  match record with
  | none => s
  | some r =>
    if r.state = 1 then
      { s with recordState := true }
    else if r.state = 0 ∧ s.recordState then
      let s := addChatMessage s (recordStopMessage s now)
      { s with recordState := false, recordId := "" }
    else
      s

/-- The class-state branch of the `classroom-property-updated` handler:
edge detection against the cached `classState`, starting or removing the
named repeating interval `'timer'` (modelled as the flag `timerOn`). -/
def handleClassState (s : MState) (status : RoomStatus) : MState :=
  if s.classState ≠ status.courseState then
    if status.courseState = 1 then
      { s with classState := status.courseState, startTime := status.startTime,
               timerOn := true }
    else
      { s with classState := status.courseState, startTime := status.startTime,
               timerOn := false }
  else
    s

/-- The `classroom-property-updated` handler: replace the cached
property tree, derive the recording flag, the class state plus timer,
and the chat-mute flag. -/
def classroomPropertyUpdated (s : MState) (c : Classroom) (now : Nat) : MState :=
  { handleClassState
      (handleRecord { s with roomProperties := c.roomProperties }
        c.roomProperties.record now)
      c.roomStatus
    with isMuted := ! c.roomStatus.isStudentChatAllowed,
         roomProperties := c.roomProperties }

/- ===================================================================
   `reset` and `leave`, claims C7 and C9.
   =================================================================== -/

/-- `reset()`: clears the chat log, the group views, the pk list, the
message list, the notice, the grouping solution and the quit flag.  The
calls into `sceneStore.reset()` and the app-store resets touch external
stores only; in particular nothing in `reset` touches the interval
registry, the `joined` flag or the cached `roomProperties` tree. -/
def reset (s : MState) : MState :=
  { s with roomChatMessages := [], userGroups := [], pkList := [],
           messages := [], notice := none, groupingSolution := 0,
           quit := false }

/-- `leave()`: sets `joiningRTC`, then awaits four external steps (RTC
leave, board leave, transport logout, room-manager leave), each of which
may throw (the four Boolean arguments).  On success the `'timer'`
interval is removed and `reset()` runs; on a throw the catch block runs
`reset()` only. -/
def leave (fRtc fBoard fLogout fRoom : Bool) (s : MState) : MState :=
  let s := { s with joiningRTC := true }
  if fRtc ∨ fBoard ∨ fLogout ∨ fRoom then
    reset s
  else
    reset { s with timerOn := false }

/- ===================================================================
   Screen-sharing flag (remote and local stream handlers), claim C8.
   =================================================================== -/

/-- Whether a stream list contains a screen stream (the
`streamList.find(videoSourceType === screen)` test). -/
def hasScreenStream (l : List EduStreamM) : Bool :=
  l.any (fun st => st.videoSourceType == VideoSourceType.screen)

/-- The shared body of the `remote-stream-added` / `remote-stream-removed`
/ `remote-stream-updated` handlers: replace the stream list wholesale,
then — only for non-teacher roles — derive the `sharing` flag from the
presence of a screen stream. -/
def remoteStreamChanged (s : MState) (newList : List EduStreamM) : MState :=
  let s := { s with streamList := newList }
  if s.userRole ≠ "teacher" then
    { s with sharing := hasScreenStream newList }
  else
    s

/-- The screen branch of the `local-stream-updated` handler: only the
teacher (host) role tracks its own outbound screen descriptor. -/
def localScreenUpdated (s : MState) (screenData : Option ScreenData) : MState :=
  if s.userRole = "teacher" then
    match screenData with
    | some sd =>
      if sd.state ≠ 0 then
        { s with screenEduStream := some sd.stream, sharing := true }
      else
        { s with screenEduStream := none, sharing := false }
    | none => { s with screenEduStream := none, sharing := false }
  else
    s

/- ===================================================================
   Stream lifecycle reconciliation (`local-stream-updated`, main
   branch), claim C10.
   =================================================================== -/

/-- The main local stream descriptor (`getLocalStreamData()`): a state
word (0 = offline) and the desired-enabled flags. -/
structure StreamDesc where
  hasVideo : Bool
  hasAudio : Bool
  deriving DecidableEq, Repr

/-- `roomManager.getLocalStreamData()` result. -/
structure LocalStreamData where
  state : Nat
  stream : StreamDesc
  deriving DecidableEq, Repr

/-- A device-level action actually performed (publish/unpublish of
camera or microphone). -/
inductive DevAction : Type
  | openCam
  | closeCam
  | openMic
  | closeMic
  deriving DecidableEq, Repr

/-- The device-facing state: whether camera and microphone are currently
open, plus the cached `_cameraEduStream` descriptor. -/
structure DevState where
  cameraOpen : Bool
  micOpen : Bool
  cameraEduStream : Option StreamDesc
  deriving DecidableEq, Repr

/-- Modelled from the spec: `sceneStore.openCamera` is not part of this
repository's sources; §4.2 states that open is idempotent — opening an
already-open camera is an externally observable no-op. -/
def openCamera (s : DevState) : DevState × List DevAction :=
  if s.cameraOpen then (s, []) else ({ s with cameraOpen := true }, [DevAction.openCam])

/-- Modelled from the spec: `sceneStore.closeCamera` (idempotent close,
§4.2), not part of this repository's sources. -/
def closeCamera (s : DevState) : DevState × List DevAction :=
  if s.cameraOpen then ({ s with cameraOpen := false }, [DevAction.closeCam]) else (s, [])

/-- Modelled from the spec: `sceneStore.openMicrophone` (idempotent
open, §4.2), not part of this repository's sources. -/
def openMicrophone (s : DevState) : DevState × List DevAction :=
  if s.micOpen then (s, []) else ({ s with micOpen := true }, [DevAction.openMic])

/-- Modelled from the spec: `sceneStore.closeMicrophone` (idempotent
close, §4.2), not part of this repository's sources. -/
def closeMicrophone (s : DevState) : DevState × List DevAction :=
  if s.micOpen then ({ s with micOpen := false }, [DevAction.closeMic]) else (s, [])

/-- The main branch of the `local-stream-updated` handler: if the local
stream descriptor is absent or offline, clear the cached stream; else
cache it, and — while attached to RTC — open or close each available
device according to the descriptor's desired flags (`hasCam`/`hasMic`
are the post-probe availability flags `_hasCamera`/`_hasMicrophone`). -/
def localMainUpdated (ls : Option LocalStreamData) (hasCam hasMic joiningRTC : Bool)
    (s : DevState) : DevState × List DevAction :=
  match ls with
  | none => ({ s with cameraEduStream := none }, [])
  | some d =>
    if d.state = 0 then
      ({ s with cameraEduStream := none }, [])
    else
      let s₀ := { s with cameraEduStream := some d.stream }
      if joiningRTC then
        let c := if hasCam then
                   (if d.stream.hasVideo then openCamera s₀ else closeCamera s₀)
                 else (s₀, [])
        let m := if hasMic then
                   (if d.stream.hasAudio then openMicrophone c.1 else closeMicrophone c.1)
                 else (c.1, [])
        (m.1, c.2 ++ m.2)
      else
        (s₀, [])

/- ===================================================================
   Concrete states for counterexamples and witnesses.
   =================================================================== -/

/-- A state in which the session clock is ticking. -/
def timerState : MState := { timerOn := true }

/-- A joined session state. -/
def joinedState : MState :=
  { joined := true,
    roomProperties := { interactOutGroups := { g1 := "group_id_1" } } }

/-- A teacher-role state, not sharing. -/
def teacherState : MState := { userRole := "teacher" }

/-- A remote stream list containing an online screen stream. -/
def screenStreamList : List EduStreamM :=
  [{ streamUuid := "s1", videoSourceType := VideoSourceType.screen }]

/-- A student-role state. -/
def studentState : MState := { userRole := "student" }

/-- A concrete online local screen descriptor. -/
def screenDataW : ScreenData :=
  { state := 1, stream := { streamUuid := "scr", videoSourceType := VideoSourceType.screen } }

/-- A state in which a recording is in progress. -/
def recordingState : MState := { recordState := true, recordId := "rec-1" }

/-- A property snapshot in which the recording has stopped. -/
def stopClassroom : Classroom :=
  { roomProperties := { record := some { state := 0 } },
    roomStatus := { courseState := 0, startTime := 0, isStudentChatAllowed := true } }

/-- A property snapshot in which the class is running. -/
def runningClassroom : Classroom :=
  { roomProperties := {},
    roomStatus := { courseState := 1, startTime := 12345, isStudentChatAllowed := true } }

/-- A concrete two-member group. -/
def groupW : UserGroup :=
  { groupUuid := "group_id_1", groupName := "group1",
    members := [{ userUuid := "u1", streamUuid := "s1", reward := 2 },
                { userUuid := "u2", streamUuid := "s2", reward := 0 }] }

/-- Both stage slots empty. -/
def emptyPlatform : InteractOutGroups := {}

/-- Only slot `g1` occupied, by `groupW`. -/
def soloPlatform : InteractOutGroups := { g1 := "group_id_1" }

/-- Both stage slots occupied by other groups. -/
def fullPlatform : InteractOutGroups := { g1 := "ga", g2 := "gb" }

end MiddleRoom

namespace MiddleRoom

theorem pairwise_const {α : Type} {R : α → α → Prop} (h : ∀ a b, R a b) :
    ∀ l : List α, l.Pairwise R
  | [] => .nil
  | a :: l => .cons (fun b _ => h a b) (pairwise_const h l)

theorem canonicalFrom_label_ge {σ : Type} (n : Nat) (ts : List (List (σ → σ))) :
    ∀ p ∈ canonicalFrom n ts, n ≤ p.1 := by
  induction ts generalizing n with
  | nil => intro p hp; simp [canonicalFrom] at hp
  | cons t ts ih =>
    intro p hp
    rw [canonicalFrom, List.mem_append] at hp
    rcases hp with hp | hp
    · rcases List.mem_map.mp hp with ⟨f, _, rfl⟩
      exact Nat.le_refl n
    · exact Nat.le_of_succ_le (ih (n + 1) p hp)

theorem canonicalFrom_sorted {σ : Type} (n : Nat) (ts : List (List (σ → σ))) :
    SerialOrder (canonicalFrom n ts) := by
  induction ts generalizing n with
  | nil => exact List.Pairwise.nil
  | cons t ts ih =>
    rw [canonicalFrom]
    refine List.pairwise_append.mpr ⟨?_, ih (n + 1), ?_⟩
    · exact List.pairwise_map.mpr (pairwise_const (fun _ _ => Nat.le_refl n) t)
    · intro a ha b hb
      rcases List.mem_map.mp ha with ⟨f, _, rfl⟩
      exact Nat.le_of_succ_le (canonicalFrom_label_ge (n + 1) ts b hb)

theorem filter_label_eq_nil {α : Type} {l : List (Nat × α)} {i : Nat}
    (h : ∀ p ∈ l, i < p.1) :
    l.filter (fun p => p.1 == i) = [] := by
  induction l with
  | nil => rfl
  | cons q t ih =>
    rw [List.filter_cons]
    have hq : (q.1 == i) = false := by
      have := h q (List.mem_cons_self q t)
      simp only [beq_eq_false_iff_ne, ne_eq]
      omega
    rw [hq]
    simp only [Bool.false_eq_true, if_false]
    exact ih (fun p hp => h p (List.mem_cons_of_mem q hp))

theorem eq_of_serialOrder_of_filter_eq {α : Type} :
    ∀ (l₁ l₂ : List (Nat × α)), SerialOrder l₁ → SerialOrder l₂ →
      (∀ i, l₁.filter (fun p => p.1 == i) = l₂.filter (fun p => p.1 == i)) →
      l₁ = l₂ := by
  intro l₁
  induction l₁ with
  | nil =>
    intro l₂ _ h₂ hfil
    cases l₂ with
    | nil => rfl
    | cons q t₂ =>
      exfalso
      have h := (hfil q.1).symm
      rw [List.filter_cons] at h
      simp only [beq_self_eq_true, if_true, List.filter_nil] at h
      exact List.cons_ne_nil _ _ h
  | cons p t₁ ih =>
    intro l₂ h₁ h₂ hfil
    cases l₂ with
    | nil =>
      exfalso
      have h := hfil p.1
      rw [List.filter_cons] at h
      simp only [beq_self_eq_true, if_true, List.filter_nil] at h
      exact List.cons_ne_nil _ _ h
    | cons q t₂ =>
      rcases List.pairwise_cons.mp h₁ with ⟨hp₁, ht₁⟩
      rcases List.pairwise_cons.mp h₂ with ⟨hq₂, ht₂⟩
      have hpq : p.1 = q.1 := by
        rcases Nat.lt_trichotomy p.1 q.1 with hlt | heq | hgt
        · exfalso
          have h := hfil p.1
          rw [List.filter_cons, List.filter_cons] at h
          have hqp : (q.1 == p.1) = false := by
            simp only [beq_eq_false_iff_ne, ne_eq]; omega
          rw [hqp] at h
          simp only [beq_self_eq_true, if_true, Bool.false_eq_true, if_false] at h
          rw [filter_label_eq_nil (fun r hr => Nat.lt_of_lt_of_le hlt (hq₂ r hr))] at h
          exact List.cons_ne_nil _ _ h
        · exact heq
        · exfalso
          have h := hfil q.1
          rw [List.filter_cons, List.filter_cons] at h
          have hpk : (p.1 == q.1) = false := by
            simp only [beq_eq_false_iff_ne, ne_eq]; omega
          rw [hpk] at h
          simp only [beq_self_eq_true, if_true, Bool.false_eq_true, if_false] at h
          rw [filter_label_eq_nil (fun r hr => Nat.lt_of_lt_of_le hgt (hp₁ r hr))] at h
          exact (List.cons_ne_nil _ _ h.symm)
      have h := hfil p.1
      rw [List.filter_cons, List.filter_cons] at h
      have hqp : (q.1 == p.1) = true := by simp [hpq]
      rw [hqp] at h
      simp only [beq_self_eq_true, if_true] at h
      have hhead : p = q := (List.cons.injEq _ _ _ _).mp h |>.1
      have htail₁ : t₁.filter (fun r => r.1 == p.1) = t₂.filter (fun r => r.1 == p.1) :=
        (List.cons.injEq _ _ _ _).mp h |>.2
      have htail : ∀ i, t₁.filter (fun r => r.1 == i) = t₂.filter (fun r => r.1 == i) := by
        intro i
        by_cases hi : i = p.1
        · subst hi; exact htail₁
        · have h := hfil i
          rw [List.filter_cons, List.filter_cons] at h
          have hpi : (p.1 == i) = false := by
            simp only [beq_eq_false_iff_ne, ne_eq]; omega
          have hqi : (q.1 == i) = false := by
            simp only [beq_eq_false_iff_ne, ne_eq]; omega
          rw [hpi, hqi] at h
          simpa using h
      rw [hhead, ih t₂ ht₁ ht₂ htail]

theorem runSched_canonicalFrom {σ : Type} (n : Nat) (ts : List (List (σ → σ))) (s : σ) :
    runSched (canonicalFrom n ts) s = execSerial ts s := by
  induction ts generalizing n s with
  | nil => rfl
  | cons t ts ih =>
    rw [canonicalFrom, runSched, List.foldl_append, List.foldl_map]
    exact ih (n + 1) (runTask s t)

theorem handleRecord_preserves (s : MState) (ro : Option RecordInfo) (now : Nat) :
    (handleRecord s ro now).classState = s.classState ∧
    (handleRecord s ro now).startTime = s.startTime ∧
    (handleRecord s ro now).timerOn = s.timerOn := by
  cases ro with
  | none => exact ⟨rfl, rfl, rfl⟩
  | some r =>
    by_cases h1 : r.state = 1
    · simp [handleRecord, h1]
    · by_cases h2 : r.state = 0 ∧ s.recordState
      · simp [handleRecord, h1, h2, addChatMessage]
      · simp [handleRecord, h1, h2]

theorem handleClassState_preserves (s : MState) (st : RoomStatus) :
    (handleClassState s st).roomChatMessages = s.roomChatMessages ∧
    (handleClassState s st).recordState = s.recordState ∧
    (handleClassState s st).recordId = s.recordId := by
  unfold handleClassState
  split
  · split <;> exact ⟨rfl, rfl, rfl⟩
  · exact ⟨rfl, rfl, rfl⟩

theorem classroomPropertyUpdated_fields (s : MState) (c : Classroom) (now : Nat) :
    (classroomPropertyUpdated s c now).roomChatMessages =
      (handleRecord { s with roomProperties := c.roomProperties }
        c.roomProperties.record now).roomChatMessages ∧
    (classroomPropertyUpdated s c now).recordState =
      (handleRecord { s with roomProperties := c.roomProperties }
        c.roomProperties.record now).recordState ∧
    (classroomPropertyUpdated s c now).recordId =
      (handleRecord { s with roomProperties := c.roomProperties }
        c.roomProperties.record now).recordId ∧
    (classroomPropertyUpdated s c now).timerOn =
      (handleClassState
        (handleRecord { s with roomProperties := c.roomProperties }
          c.roomProperties.record now) c.roomStatus).timerOn ∧
    (classroomPropertyUpdated s c now).startTime =
      (handleClassState
        (handleRecord { s with roomProperties := c.roomProperties }
          c.roomProperties.record now) c.roomStatus).startTime := by
  obtain ⟨hA, hB, hC⟩ := handleClassState_preserves
    (handleRecord { s with roomProperties := c.roomProperties } c.roomProperties.record now)
    c.roomStatus
  simp [classroomPropertyUpdated, hA, hB, hC]

/-- Claim C5: on a property snapshot with `record.state = 0` while the
cached recording flag is true, exactly one system chat message is
appended, the recording flag is cleared and the cached record id is
cleared to the empty string; with the cached flag already false, no
message is appended and the record id is unchanged. -/
theorem record_stop_transition (s : MState) (c : Classroom) (now : Nat) (r : RecordInfo)
    (hr : c.roomProperties.record = some r) (h0 : r.state = 0) :
    (s.recordState = true →
       (classroomPropertyUpdated s c now).roomChatMessages =
         s.roomChatMessages ++ [recordStopMessage s now] ∧
       (classroomPropertyUpdated s c now).recordState = false ∧
       (classroomPropertyUpdated s c now).recordId = "") ∧
    (s.recordState = false →
       (classroomPropertyUpdated s c now).roomChatMessages = s.roomChatMessages ∧
       (classroomPropertyUpdated s c now).recordId = s.recordId ∧
       (classroomPropertyUpdated s c now).recordState = false) := by
  obtain ⟨hmsg, hrec, hid, _, _⟩ := classroomPropertyUpdated_fields s c now
  have h1 : ¬ (r.state = 1) := by omega
  constructor
  · intro htrue
    rw [hmsg, hrec, hid, hr]
    simp [handleRecord, h1, h0, htrue, addChatMessage, recordStopMessage]
  · intro hfalse
    rw [hmsg, hrec, hid, hr]
    simp [handleRecord, h1, h0, hfalse]

/-- Claim C5 witness: a concrete stop transition. -/
theorem record_stop_transition_witness :
    (recordingState.recordState = true →
       (classroomPropertyUpdated recordingState stopClassroom 42).roomChatMessages =
         recordingState.roomChatMessages ++ [recordStopMessage recordingState 42] ∧
       (classroomPropertyUpdated recordingState stopClassroom 42).recordState = false ∧
       (classroomPropertyUpdated recordingState stopClassroom 42).recordId = "") ∧
    (recordingState.recordState = false →
       (classroomPropertyUpdated recordingState stopClassroom 42).roomChatMessages =
         recordingState.roomChatMessages ∧
       (classroomPropertyUpdated recordingState stopClassroom 42).recordId =
         recordingState.recordId ∧
       (classroomPropertyUpdated recordingState stopClassroom 42).recordState = false) :=
  record_stop_transition recordingState stopClassroom 42 { state := 0 } rfl rfl

/-- Claim C6: on every property snapshot, a change of `courseState` into
running (1) snapshots `startTime` and starts the `'timer'` interval; a
change to a non-running value records `startTime` and removes the
interval; an unchanged `courseState` neither starts nor stops it. -/
theorem class_state_timer (s : MState) (c : Classroom) (now : Nat) :
    (s.classState ≠ c.roomStatus.courseState → c.roomStatus.courseState = 1 →
       (classroomPropertyUpdated s c now).timerOn = true ∧
       (classroomPropertyUpdated s c now).startTime = c.roomStatus.startTime) ∧
    (s.classState ≠ c.roomStatus.courseState → c.roomStatus.courseState ≠ 1 →
       (classroomPropertyUpdated s c now).timerOn = false ∧
       (classroomPropertyUpdated s c now).startTime = c.roomStatus.startTime) ∧
    (s.classState = c.roomStatus.courseState →
       (classroomPropertyUpdated s c now).timerOn = s.timerOn ∧
       (classroomPropertyUpdated s c now).startTime = s.startTime) := by
  obtain ⟨_, _, _, hto, hst⟩ := classroomPropertyUpdated_fields s c now
  have hcs : (handleRecord { s with roomProperties := c.roomProperties }
      c.roomProperties.record now).classState = s.classState := by
    simpa using (handleRecord_preserves { s with roomProperties := c.roomProperties }
      c.roomProperties.record now).1
  have hsta : (handleRecord { s with roomProperties := c.roomProperties }
      c.roomProperties.record now).startTime = s.startTime := by
    simpa using (handleRecord_preserves { s with roomProperties := c.roomProperties }
      c.roomProperties.record now).2.1
  have htoa : (handleRecord { s with roomProperties := c.roomProperties }
      c.roomProperties.record now).timerOn = s.timerOn := by
    simpa using (handleRecord_preserves { s with roomProperties := c.roomProperties }
      c.roomProperties.record now).2.2
  refine ⟨?_, ?_, ?_⟩
  · intro hne h1
    rw [hto, hst]
    unfold handleClassState
    rw [if_pos (by rw [hcs]; exact hne), if_pos h1]
    exact ⟨rfl, rfl⟩
  · intro hne h1
    rw [hto, hst]
    unfold handleClassState
    rw [if_pos (by rw [hcs]; exact hne), if_neg h1]
    exact ⟨rfl, rfl⟩
  · intro heq
    rw [hto, hst]
    unfold handleClassState
    rw [if_neg (by rw [hcs]; exact fun hh => hh heq)]
    exact ⟨htoa, hsta⟩

/-- Claim C6 witness: a concrete 0→1 transition starts the clock. -/
theorem class_state_timer_witness :
    ((studentState.classState ≠ runningClassroom.roomStatus.courseState →
        runningClassroom.roomStatus.courseState = 1 →
        (classroomPropertyUpdated studentState runningClassroom 7).timerOn = true ∧
        (classroomPropertyUpdated studentState runningClassroom 7).startTime =
          runningClassroom.roomStatus.startTime) ∧
     (studentState.classState ≠ runningClassroom.roomStatus.courseState →
        runningClassroom.roomStatus.courseState ≠ 1 →
        (classroomPropertyUpdated studentState runningClassroom 7).timerOn = false ∧
        (classroomPropertyUpdated studentState runningClassroom 7).startTime =
          runningClassroom.roomStatus.startTime) ∧
     (studentState.classState = runningClassroom.roomStatus.courseState →
        (classroomPropertyUpdated studentState runningClassroom 7).timerOn =
          studentState.timerOn ∧
        (classroomPropertyUpdated studentState runningClassroom 7).startTime =
          studentState.startTime)) ∧
    (classroomPropertyUpdated studentState runningClassroom 7).timerOn = true :=
  ⟨class_state_timer studentState runningClassroom 7,
   ((class_state_timer studentState runningClassroom 7).1 (by decide) rfl).1⟩

/-- Claim C2: stage occupancy is bounded by two slots; `clickPlatform`
on a group occupying neither slot is a silent no-op when both slots are
full, and otherwise publishes the members' streams and writes the group
id into the first empty slot, preferring `g1` over `g2`. -/
theorem clickPlatform_capacity (pf : InteractOutGroups) (g : UserGroup) :
    occupiedCount pf ≤ 2 ∧
    (g.groupUuid ≠ pf.g1 → g.groupUuid ≠ pf.g2 →
      (pf.g1 ≠ "" → pf.g2 ≠ "" → clickPlatform pf g = []) ∧
      ((pf.g1 = "" ∨ pf.g2 = "") →
        clickPlatform pf g =
          [Call.upsertStream (g.members.map memberUpsert),
           Call.updateProps
             [("groupStates.state", PropValue.num 1),
              ("groupStates.interactInGroup", PropValue.num 0),
              ("groupStates.interactOutGroup", PropValue.num 1),
              ("interactOutGroups." ++ placementSlot pf, PropValue.str g.groupUuid)]
             ("104")])) := by
  constructor
  · unfold occupiedCount
    split_ifs <;> omega
  · intro h1 h2
    have hno : ¬ (pf.g1 = g.groupUuid ∨ pf.g2 = g.groupUuid) := by
      rintro (h | h)
      · exact h1 h.symm
      · exact h2 h.symm
    constructor
    · intro hg1 hg2
      simp [clickPlatform, hno, hg1, hg2]
    · intro hor
      have hfull : ¬ (pf.g1 ≠ "" ∧ pf.g2 ≠ "") := by tauto
      simp [clickPlatform, hno, hfull, placementSlot]

/-- Claim C2 witness: with both slots full the call is a no-op; with
both empty the group is seated into `g1`. -/
theorem clickPlatform_capacity_witness :
    clickPlatform fullPlatform groupW = [] ∧
    clickPlatform emptyPlatform groupW =
      [Call.upsertStream (groupW.members.map memberUpsert),
       Call.updateProps
         [("groupStates.state", PropValue.num 1),
          ("groupStates.interactInGroup", PropValue.num 0),
          ("groupStates.interactOutGroup", PropValue.num 1),
          ("interactOutGroups." ++ placementSlot emptyPlatform,
            PropValue.str groupW.groupUuid)]
         ("104")] :=
  ⟨((clickPlatform_capacity fullPlatform groupW).2 (by decide) (by decide)).1
      (by decide) (by decide),
   ((clickPlatform_capacity emptyPlatform groupW).2 (by decide) (by decide)).2
      (Or.inl rfl)⟩

/-- Claim C3: `clickPlatform` on a group occupying a slot clears that
slot and batch-deletes every member's stream; the same property update
clears the out-of-group interaction flag exactly when the vacated slot
was the last occupied one. -/
theorem clickPlatform_remove (pf : InteractOutGroups) (g : UserGroup)
    (h : pf.g1 = g.groupUuid ∨ pf.g2 = g.groupUuid) :
    clickPlatform pf g =
      [Call.updateProps
         (if removalOtherEmpty pf g.groupUuid then
            [("groupStates.interactOutGroup", PropValue.num 0),
             ("interactOutGroups." ++ removalSlot pf g.groupUuid, PropValue.str (""))]
          else
            [("interactOutGroups." ++ removalSlot pf g.groupUuid, PropValue.str (""))])
         ("104"),
       Call.deleteStream (g.members.map memberDelete)] := by
  by_cases hg1 : pf.g1 = g.groupUuid
  · by_cases hg2 : pf.g2 = "" <;>
      simp [clickPlatform, removalSlot, removalOtherEmpty, hg1, hg2]
  · have hg2 : pf.g2 = g.groupUuid := h.resolve_left hg1
    by_cases hg1e : pf.g1 = ""
    · have hgg : ¬ (("" : String) = g.groupUuid) := fun hh => hg1 (hg1e.trans hh)
      simp [clickPlatform, removalSlot, removalOtherEmpty, hg1, hg2, hg1e, hgg]
    · simp [clickPlatform, removalSlot, removalOtherEmpty, hg1, hg2, hg1e]

/-- Claim C1: for every set of handler bodies submitted to the
serializer, any schedule obeying the mutex discipline — every segment of
every task runs exactly once in program order (the filter hypothesis)
and the submission labels never interleave and appear in submission
order (`SerialOrder`) — produces the final state of running the handlers
sequentially in submission order. -/
theorem serializer_sequential {σ : Type} (tasks : List (List (σ → σ)))
    (sched : List (Nat × (σ → σ))) (hser : SerialOrder sched)
    (hsub : ∀ i, sched.filter (fun p => p.1 == i) =
        (canonicalSched tasks).filter (fun p => p.1 == i)) (s : σ) :
    runSched sched s = execSerial tasks s := by
  have heq : sched = canonicalSched tasks :=
    eq_of_serialOrder_of_filter_eq sched (canonicalSched tasks) hser
      (canonicalFrom_sorted 0 tasks) hsub
  rw [heq]
  exact runSched_canonicalFrom 0 tasks s

/-- Claim C1 witness: two concrete tasks of three segments total. -/
theorem serializer_sequential_witness :
    runSched (canonicalSched tasksW) 2 = execSerial tasksW 2 ∧
    execSerial tasksW 2 = 14 :=
  ⟨serializer_sequential tasksW (canonicalSched tasksW) (canonicalFrom_sorted 0 tasksW)
      (fun _ => rfl) 2,
   rfl⟩

theorem string_data_append (x y : String) : (x ++ y).data = x.data ++ y.data := by
  rw [String.congr_append]

theorem rewardWrap_inj (a b : String)
    (hab : "students." ++ a ++ ".reward" = "students." ++ b ++ ".reward") : a = b := by
  have h1 := congrArg String.data hab
  rw [string_data_append, string_data_append, string_data_append, string_data_append] at h1
  exact String.ext (List.append_cancel_left (List.append_cancel_right h1))

theorem foldl_objInsert_eq_append :
    ∀ (kvs : List (String × PropValue)) (l : List (String × PropValue)),
      (∀ kv ∈ kvs, ∀ p ∈ l, p.1 ≠ kv.1) →
      (kvs.map Prod.fst).Nodup →
      kvs.foldl objInsert l = l ++ kvs := by
  intro kvs
  induction kvs with
  | nil => intro l _ _; simp
  | cons kv rest ih =>
    intro l hfresh hnodup
    rw [List.map_cons, List.nodup_cons] at hnodup
    obtain ⟨hkm, hnd⟩ := hnodup
    have hins : objInsert l kv = l ++ [kv] := by
      unfold objInsert
      have hany : (l.any fun p => p.1 == kv.1) = false := by
        rw [List.any_eq_false]
        intro p hp
        simp only [beq_iff_eq]
        exact hfresh kv (List.mem_cons_self _ _) p hp
      rw [hany]
      simp
    have hfresh2 : ∀ kv2 ∈ rest, ∀ p ∈ l ++ [kv], p.1 ≠ kv2.1 := by
      intro kv2 h2 p hp
      rcases List.mem_append.mp hp with hp | hp
      · exact hfresh kv2 (List.mem_cons_of_mem _ h2) p hp
      · rcases List.mem_singleton.mp hp with rfl
        intro he
        exact hkm (by rw [he]; exact List.mem_map_of_mem Prod.fst h2)
    rw [List.foldl_cons, hins, ih (l ++ [kv]) hfresh2 hnd, List.append_assoc]
    rfl

/-- Claim C4: for a group whose members carry pairwise distinct user
ids, `addGroupStar` issues exactly one batched property update whose
payload has one entry per member, each setting
`students.<uuid>.reward` to the member's cached reward plus one; the
method touches no local state (it is a pure function of the group). -/
theorem addGroupStar_spec (g : UserGroup)
    (h : (g.members.map Member.userUuid).Nodup) :
    addGroupStar g =
      [Call.updateProps
        (g.members.map (fun m => (rewardKey m, PropValue.num (m.reward + 1)))) ("202")] ∧
    (g.members.map (fun m => (rewardKey m, PropValue.num (m.reward + 1)))).length =
      g.members.length := by
  have hkeys : (g.members.map rewardKey).Nodup := by
    have h2 : g.members.map rewardKey =
        (g.members.map Member.userUuid).map (fun u => "students." ++ u ++ ".reward") := by
      rw [List.map_map]
      rfl
    rw [h2]
    exact h.map (fun a b hab => rewardWrap_inj a b hab)
  constructor
  · have hfold : g.members.foldl
        (fun acc m => objInsert acc (rewardKey m, PropValue.num (m.reward + 1))) [] =
        (g.members.map (fun m => (rewardKey m, PropValue.num (m.reward + 1)))).foldl
          objInsert [] :=
      (List.foldl_map _ _ _ _).symm
    have hfr : ∀ kv ∈ g.members.map (fun m => (rewardKey m, PropValue.num (m.reward + 1))),
        ∀ p ∈ ([] : List (String × PropValue)), p.1 ≠ kv.1 := by
      intro kv _ p hp
      exact absurd hp (List.not_mem_nil p)
    have hnd : ((g.members.map
        (fun m => (rewardKey m, PropValue.num (m.reward + 1)))).map Prod.fst).Nodup := by
      rw [List.map_map]
      exact hkeys
    simp only [addGroupStar]
    rw [hfold, foldl_objInsert_eq_append _ [] hfr hnd]
    simp
  · rw [List.length_map]

/-- Claim C4 witness: the concrete two-member group. -/
theorem addGroupStar_spec_witness :
    addGroupStar groupW =
      [Call.updateProps
        (groupW.members.map (fun m => (rewardKey m, PropValue.num (m.reward + 1)))) ("202")] ∧
    (groupW.members.map (fun m => (rewardKey m, PropValue.num (m.reward + 1)))).length =
      groupW.members.length :=
  addGroupStar_spec groupW (by decide)

/-- Claim C7 counterexample: when the first internal step of `leave()`
throws, the `'timer'` interval is not removed — the catch block only
runs `reset()`, which does not touch the interval registry. -/
theorem leave_throw_timer_cex :
    (leave true false false false timerState).timerOn = true := rfl

/-- Claim C7 (amended): `leave()` removes the `'timer'` interval on the
no-throw path; if any internal step throws, the interval is left in its
previous state (only `reset()` runs). -/
theorem leave_timer_amended (s : MState) (f₁ f₂ f₃ f₄ : Bool) :
    (leave false false false false s).timerOn = false ∧
    ((f₁ = true ∨ f₂ = true ∨ f₃ = true ∨ f₄ = true) →
      (leave f₁ f₂ f₃ f₄ s).timerOn = s.timerOn) := by
  constructor
  · rfl
  · intro hf
    rcases hf with h | h | h | h <;> subst h <;> simp [leave, reset]

/-- Claim C7 witness: a ticking timer, with the RTC-leave step
throwing. -/
theorem leave_timer_amended_witness :
    (leave false false false false timerState).timerOn = false ∧
    ((true = true ∨ false = true ∨ false = true ∨ false = true) →
      (leave true false false false timerState).timerOn = timerState.timerOn) :=
  leave_timer_amended timerState true false false false

/-- Claim C8 counterexample: in the teacher role, a remote stream
notification whose list contains a screen stream leaves the `sharing`
flag false — the remote handlers only derive `sharing` for non-teacher
roles. -/
theorem sharing_remote_teacher_cex :
    (remoteStreamChanged teacherState screenStreamList).sharing = false ∧
    hasScreenStream screenStreamList = true := by
  exact ⟨by decide, rfl⟩

/-- Claim C8 (amended): for every non-teacher role, after any remote
stream notification the `sharing` flag equals the presence of a screen
stream in the list; the teacher role leaves `sharing` unchanged on
remote notifications and instead sets it from its own local screen
descriptor on local screen-stream updates. -/
theorem sharing_flag_amended (s : MState) (l : List EduStreamM) (sd : ScreenData) :
    (s.userRole ≠ "teacher" → (remoteStreamChanged s l).sharing = hasScreenStream l) ∧
    (s.userRole = "teacher" → (remoteStreamChanged s l).sharing = s.sharing) ∧
    (s.userRole = "teacher" → sd.state ≠ 0 →
      (localScreenUpdated s (some sd)).sharing = true) ∧
    (s.userRole = "teacher" → sd.state = 0 →
      (localScreenUpdated s (some sd)).sharing = false) ∧
    (s.userRole ≠ "teacher" → localScreenUpdated s (some sd) = s) := by
  refine ⟨?_, ?_, ?_, ?_, ?_⟩
  · intro h; simp [remoteStreamChanged, h]
  · intro h; simp [remoteStreamChanged, h]
  · intro h h0; simp [localScreenUpdated, h, h0]
  · intro h h0; simp [localScreenUpdated, h, h0]
  · intro h; simp [localScreenUpdated, h]

/-- Claim C8 witness: a student-role state with a screen stream in the
remote list and an online local screen descriptor. -/
theorem sharing_flag_amended_witness :
    (studentState.userRole ≠ "teacher" →
      (remoteStreamChanged studentState screenStreamList).sharing =
        hasScreenStream screenStreamList) ∧
    (studentState.userRole = "teacher" →
      (remoteStreamChanged studentState screenStreamList).sharing =
        studentState.sharing) ∧
    (studentState.userRole = "teacher" → screenDataW.state ≠ 0 →
      (localScreenUpdated studentState (some screenDataW)).sharing = true) ∧
    (studentState.userRole = "teacher" → screenDataW.state = 0 →
      (localScreenUpdated studentState (some screenDataW)).sharing = false) ∧
    (studentState.userRole ≠ "teacher" →
      localScreenUpdated studentState (some screenDataW) = studentState) :=
  sharing_flag_amended studentState screenStreamList screenDataW

/-- Claim C9 counterexample: `reset()` does not clear the `joined` flag
(nor the cached property tree) back to its initial value. -/
theorem reset_joined_cex :
    (reset joinedState).joined = true ∧
    (reset joinedState).roomProperties = joinedState.roomProperties ∧
    joinedState.roomProperties ≠ ({} : RoomProps) :=
  ⟨rfl, rfl, by decide⟩

/-- Claim C9 (amended): `reset()` (and hence `leave()`) clears the chat
log, user groups, pk list, messages, notice, grouping solution and quit
flag to their initial values, but leaves the `joined` flag and the
cached room property tree untouched. -/
theorem reset_clears (s : MState) (f₁ f₂ f₃ f₄ : Bool) :
    (reset s).roomChatMessages = [] ∧ (reset s).userGroups = [] ∧
    (reset s).pkList = [] ∧ (reset s).messages = [] ∧
    (reset s).notice = none ∧ (reset s).groupingSolution = 0 ∧
    (reset s).quit = false ∧
    (reset s).joined = s.joined ∧ (reset s).roomProperties = s.roomProperties ∧
    (leave f₁ f₂ f₃ f₄ s).joined = s.joined ∧
    (leave f₁ f₂ f₃ f₄ s).roomProperties = s.roomProperties := by
  refine ⟨rfl, rfl, rfl, rfl, rfl, rfl, rfl, rfl, rfl, ?_, ?_⟩
  · simp only [leave]
    split <;> rfl
  · simp only [leave]
    split <;> rfl

/-- Claim C10: running the main-stream reconciliation twice in a row
with the same stream descriptor, device availability flags and
`joiningRTC` state produces no device open/close action on the second
pass. -/
theorem reconcile_idempotent (ls : Option LocalStreamData) (hasCam hasMic joiningRTC : Bool)
    (s : DevState) :
    localMainUpdated ls hasCam hasMic joiningRTC
        (localMainUpdated ls hasCam hasMic joiningRTC s).1 =
      ((localMainUpdated ls hasCam hasMic joiningRTC s).1, []) := by
  cases ls with
  | none => rfl
  | some d =>
    rcases d with ⟨st, hv, ha⟩
    by_cases hd : st = 0
    · simp [localMainUpdated, hd]
    · cases joiningRTC with
      | false => simp [localMainUpdated, hd]
      | true =>
        rcases s with ⟨co, mo, ces⟩
        cases hasCam <;> cases hasMic <;> cases hv <;> cases ha <;> cases co <;> cases mo <;>
          simp [localMainUpdated, openCamera, closeCamera, openMicrophone, closeMicrophone, hd]

/-- Claim C3 witness: removing the last occupied slot clears the
out-of-group flag in the same update and deletes both members'
streams. -/
theorem clickPlatform_remove_witness :
    clickPlatform soloPlatform groupW =
      [Call.updateProps
         (if removalOtherEmpty soloPlatform groupW.groupUuid then
            [("groupStates.interactOutGroup", PropValue.num 0),
             ("interactOutGroups." ++ removalSlot soloPlatform groupW.groupUuid,
               PropValue.str (""))]
          else
            [("interactOutGroups." ++ removalSlot soloPlatform groupW.groupUuid,
               PropValue.str (""))])
         ("104"),
       Call.deleteStream (groupW.members.map memberDelete)] ∧
    removalOtherEmpty soloPlatform groupW.groupUuid :=
  ⟨clickPlatform_remove soloPlatform groupW (Or.inl rfl), by decide⟩

end MiddleRoom
